import Mathlib

/-!
Verification of the voice-relay server (`src/app.py`) of the
conversational-health-tracker repository.

The development shallowly embeds the parts of `app.py` that the checked
properties are about:

* the value space of the JSON/Python messages flowing through the relay
  (`PyVal`), including raw Python byte strings, because the client-audio
  path embeds `bytes` objects inside a dict that is then passed to
  `json.dumps`;
* the global `active_conversations` registry (a Python dict) and its
  operations (`dictGet`, `dictSet`, `dictPop`);
* the per-message bodies of the two relay pumps
  (`handle_client_audio`, `handle_elevenlabs_messages`);
* the handshake portion of `websocket_endpoint` (initial metadata,
  conversation-id rekey, deferred database write-through, initiation
  config);
* the HTTP handlers `trigger_notification`, `accept_notification` and
  `end_call`.

External effects (network peers, the database, the wall clock, the
outcome of an attempted socket send) are passed in as explicit inputs;
everything the Python code decides itself is computed by the embedding.
-/

/-- Python/JSON values as they flow through the relay.  Dicts are modelled
as ordered key-value chains (`objCons` / `objNil`), matching Python's
insertion-ordered `dict`.  `bytes` models Python byte strings (the type of
a binary WebSocket frame), which are *not* JSON-serializable. -/
inductive PyVal where
  | str (s : String)
  | bytes (b : List Nat)
  | num (n : Nat)
  | bool (b : Bool)
  | pynone
  | objNil
  | objCons (key : String) (val rest : PyVal)
deriving DecidableEq, Repr

/-- Convenience constructor building a dict value from a field list. -/
def PyVal.obj : List (String × PyVal) → PyVal
  | [] => .objNil
  | (k, v) :: rest => .objCons k v (PyVal.obj rest)

/-- Whether a value is a Python dict. -/
def PyVal.isObj : PyVal → Bool
  | .objNil => true
  | .objCons _ _ _ => true
  | _ => false

/-- Dict lookup: `d.get(k)` / `d[k]` on a dict.  Returns `none` both for
a missing key and for a non-dict value (callers distinguish the cases). -/
def PyVal.getKey : PyVal → String → Option PyVal
  | .objCons key v rest, k => if key = k then some v else rest.getKey k
  | _, _ => none

/-- Whether a value contains a Python `bytes` object anywhere.  `json.dumps`
raises `TypeError` exactly on such values (all other constructors of
`PyVal` are JSON-serializable Python values). -/
def PyVal.hasBytes : PyVal → Bool
  | .bytes _ => true
  | .objCons _ v rest => v.hasBytes || rest.hasBytes
  | _ => false

/-- `json.dumps` succeeds on the value (no embedded `bytes`). -/
def json_serializable (v : PyVal) : Bool := !v.hasBytes

/-- Python's `k in container` for a string `k`: key test on a dict,
substring test on a string, `TypeError` (modelled as `none`) otherwise. -/
def pyContains (container : PyVal) (k : String) : Option Bool :=
  match container with
  | .objNil => some false
  | .objCons key v rest => some ((PyVal.objCons key v rest).getKey k).isSome
  | .str s => some (decide (1 < (s.splitOn k).length))
  | _ => none

/-- Python's `container[k]` for a string key `k`: dict lookup (`none` models
`KeyError` on a missing key and `TypeError` on a non-dict value). -/
def pyGetItem (container : PyVal) (k : String) : Option PyVal :=
  if container.isObj then container.getKey k else none

/-- Python's `len(v)`: defined for strings, byte strings and dicts;
`TypeError` (`none`) otherwise. -/
def pyLen : PyVal → Option Nat
  | .str s => some s.length
  | .bytes b => some b.length
  | .objNil => some 0
  | .objCons _ _ rest => (pyLen rest).map (· + 1)
  | _ => none

/-- Whether the value may be used as a dict key (Python dicts are
unhashable, everything else occurring here is hashable). -/
def PyVal.hashable : PyVal → Bool
  | .objNil => false
  | .objCons _ _ _ => false
  | _ => true

/-- One entry of the `active_conversations` registry: the session record,
a Python dict in the source.  Fields that a given handler does not set are
`none` (Python code only reads them through `.get`, which returns `None`
for missing keys, so `none` faithfully covers both "absent" and "None").
`websocket` is a back-reference to the client socket, modelled by an
opaque handle number. -/
structure Record where
  user_id : String := ""
  agent_id : String := ""
  status : String := ""
  first_message : Option String := none
  system_prompt : Option String := none
  language : Option String := none
  notification_title : Option String := none
  notification_body : Option String := none
  websocket : Option Nat := none
  signed_url : Option String := none
  conversation_id : Option String := none
  needs_db_storage : Bool := false
  created_at : Option Nat := none
deriving DecidableEq, Repr

/-- The `active_conversations` dict: insertion-ordered key/record pairs.
Keys are `PyVal` because the handshake rekey installs whatever value the
upstream metadata carries as the new key. -/
abbrev Registry := List (PyVal × Record)

/-- Dict lookup `reg[k]` / `reg.get(k)`. -/
def dictGet : Registry → PyVal → Option Record
  | [], _ => none
  | e :: rest, k => if e.1 = k then some e.2 else dictGet rest k

/-- Dict key test `k in reg`. -/
def hasKeyReg : Registry → PyVal → Bool
  | [], _ => false
  | e :: rest, k => decide (e.1 = k) || hasKeyReg rest k

/-- Replace the value stored under an existing key, keeping positions. -/
def setExisting : Registry → PyVal → Record → Registry
  | [], _, _ => []
  | e :: rest, k, v => (if e.1 = k then (k, v) else e) :: setExisting rest k v

/-- Dict assignment `reg[k] = v`: update in place if the key exists,
append otherwise (Python dict semantics). -/
def dictSet (reg : Registry) (k : PyVal) (v : Record) : Registry :=
  if hasKeyReg reg k then setExisting reg k v else reg ++ [(k, v)]

/-- Dict removal `reg.pop(k, None)`. -/
def dictPop : Registry → PyVal → Registry
  | [], _ => []
  | e :: rest, k => if e.1 = k then dictPop rest k else e :: dictPop rest k

/-- Number of entries stored under a key. -/
def keyCount : Registry → PyVal → Nat
  | [], _ => 0
  | e :: rest, k => (if e.1 = k then 1 else 0) + keyCount rest k

/-- The keys of a registry are pairwise distinct (true of every Python
dict by construction). -/
abbrev keysNodup (reg : Registry) : Prop := (reg.map Prod.fst).Nodup

theorem dictGet_pop_self (reg : Registry) (k : PyVal) :
    dictGet (dictPop reg k) k = none := by
  induction reg with
  | nil => rfl
  | cons e rest ih =>
    by_cases h : e.1 = k
    · simp [dictPop, h, ih]
    · simp [dictPop, dictGet, h, ih]

theorem dictGet_pop_ne (reg : Registry) (k k2 : PyVal) (h : k ≠ k2) :
    dictGet (dictPop reg k2) k = dictGet reg k := by
  induction reg with
  | nil => rfl
  | cons e rest ih =>
    by_cases he : e.1 = k2
    · have h1 : e.1 ≠ k := by rw [he]; exact fun hc => h hc.symm
      have h2 : ¬ (k2 = k) := fun hc => h hc.symm
      simp [dictPop, dictGet, he, h1, h2, ih]
    · simp [dictPop, dictGet, he, ih]

theorem keyCount_pop_self (reg : Registry) (k : PyVal) :
    keyCount (dictPop reg k) k = 0 := by
  induction reg with
  | nil => rfl
  | cons e rest ih =>
    by_cases h : e.1 = k
    · simp [dictPop, h, ih]
    · simp [dictPop, keyCount, h, ih]

theorem keyCount_pop_ne (reg : Registry) (k k2 : PyVal) (h : k ≠ k2) :
    keyCount (dictPop reg k2) k = keyCount reg k := by
  induction reg with
  | nil => rfl
  | cons e rest ih =>
    by_cases he : e.1 = k2
    · have h1 : e.1 ≠ k := by rw [he]; exact fun hc => h hc.symm
      have h2 : ¬ (k2 = k) := fun hc => h hc.symm
      simp [dictPop, keyCount, he, h1, h2, ih]
    · simp [dictPop, keyCount, he, ih]

theorem dictGet_append_of_not_hasKey (reg : Registry) (k : PyVal) (v : Record)
    (h : hasKeyReg reg k = false) :
    dictGet (reg ++ [(k, v)]) k = some v := by
  induction reg with
  | nil => simp [dictGet]
  | cons e rest ih =>
    simp only [hasKeyReg, Bool.or_eq_false_iff, decide_eq_false_iff_not] at h
    simp [dictGet, h.1, ih h.2]

theorem dictGet_setExisting_self (reg : Registry) (k : PyVal) (v : Record)
    (h : hasKeyReg reg k = true) :
    dictGet (setExisting reg k v) k = some v := by
  induction reg with
  | nil => simp [hasKeyReg] at h
  | cons e rest ih =>
    by_cases he : e.1 = k
    · simp [setExisting, dictGet, he]
    · simp only [hasKeyReg, Bool.or_eq_true, decide_eq_true_eq] at h
      rcases h with h | h
      · exact absurd h he
      · simp [setExisting, dictGet, he, ih h]

theorem dictGet_set_self (reg : Registry) (k : PyVal) (v : Record) :
    dictGet (dictSet reg k v) k = some v := by
  unfold dictSet
  by_cases h : hasKeyReg reg k
  · simp [h, dictGet_setExisting_self reg k v h]
  · simp only [h, if_neg, Bool.false_eq_true, if_false]
    exact dictGet_append_of_not_hasKey reg k v (by simpa using h)

theorem keyCount_setExisting_self (reg : Registry) (k : PyVal) (v : Record) :
    keyCount (setExisting reg k v) k = keyCount reg k := by
  induction reg with
  | nil => rfl
  | cons e rest ih =>
    by_cases he : e.1 = k
    · simp [setExisting, keyCount, he, ih]
    · simp [setExisting, keyCount, he, ih]

theorem keyCount_setExisting_ne (reg : Registry) (k k2 : PyVal) (v : Record)
    (h : k2 ≠ k) :
    keyCount (setExisting reg k v) k2 = keyCount reg k2 := by
  induction reg with
  | nil => rfl
  | cons e rest ih =>
    by_cases he : e.1 = k
    · have : ¬ (k = k2) := fun hc => h hc.symm
      simp [setExisting, keyCount, he, this, ih]
    · simp [setExisting, keyCount, he, ih]

theorem keyCount_append (reg reg2 : Registry) (k : PyVal) :
    keyCount (reg ++ reg2) k = keyCount reg k + keyCount reg2 k := by
  induction reg with
  | nil => simp [keyCount]
  | cons e rest ih => simp [keyCount, ih]; omega

theorem keyCount_eq_zero_of_not_hasKey (reg : Registry) (k : PyVal)
    (h : hasKeyReg reg k = false) :
    keyCount reg k = 0 := by
  induction reg with
  | nil => rfl
  | cons e rest ih =>
    simp only [hasKeyReg, Bool.or_eq_false_iff, decide_eq_false_iff_not] at h
    simp [keyCount, h.1, ih h.2]

theorem mem_keys_of_hasKey (reg : Registry) (k : PyVal)
    (h : hasKeyReg reg k = true) : k ∈ reg.map Prod.fst := by
  induction reg with
  | nil => simp [hasKeyReg] at h
  | cons e rest ih =>
    simp only [hasKeyReg, Bool.or_eq_true, decide_eq_true_eq] at h
    rcases h with h | h
    · simp [h]
    · simpa using Or.inr (ih h)

theorem keyCount_eq_one_of_nodup (reg : Registry) (k : PyVal)
    (hnd : keysNodup reg) (h : hasKeyReg reg k = true) :
    keyCount reg k = 1 := by
  induction reg with
  | nil => simp [hasKeyReg] at h
  | cons e rest ih =>
    simp only [keysNodup, List.map_cons, List.nodup_cons] at hnd
    by_cases he : e.1 = k
    · have hno : hasKeyReg rest k = false := by
        cases hcc : hasKeyReg rest k
        · rfl
        · exact absurd (he ▸ mem_keys_of_hasKey rest k hcc) hnd.1
      simp [keyCount, he, keyCount_eq_zero_of_not_hasKey rest k hno]
    · simp only [hasKeyReg, Bool.or_eq_true, decide_eq_true_eq] at h
      rcases h with h | h
      · exact absurd h he
      · simp [keyCount, he, ih hnd.2 h]

theorem hasKeyReg_of_dictGet (reg : Registry) (k : PyVal) (r : Record)
    (h : dictGet reg k = some r) : hasKeyReg reg k = true := by
  induction reg with
  | nil => simp [dictGet] at h
  | cons e rest ih =>
    by_cases he : e.1 = k
    · simp [hasKeyReg, he]
    · simp only [dictGet, he, if_false] at h
      simp [hasKeyReg, he, ih h]

theorem keyCount_set_self_of_nodup (reg : Registry) (k : PyVal) (v : Record)
    (hnd : keysNodup reg) :
    keyCount (dictSet reg k v) k = 1 := by
  unfold dictSet
  by_cases h : hasKeyReg reg k
  · simp only [h, if_true]
    rw [keyCount_setExisting_self, keyCount_eq_one_of_nodup reg k hnd h]
  · simp only [h, Bool.false_eq_true, if_false]
    rw [keyCount_append, keyCount_eq_zero_of_not_hasKey reg k (by simpa using h)]
    simp [keyCount]

theorem keyCount_set_of_hasKey (reg : Registry) (k : PyVal) (v : Record)
    (h : hasKeyReg reg k = true) :
    keyCount (dictSet reg k v) k = keyCount reg k := by
  unfold dictSet
  rw [if_pos h, keyCount_setExisting_self]

theorem keyCount_set_ne (reg : Registry) (k k2 : PyVal) (v : Record)
    (h : k2 ≠ k) :
    keyCount (dictSet reg k v) k2 = keyCount reg k2 := by
  unfold dictSet
  by_cases hk : hasKeyReg reg k
  · simp [hk, keyCount_setExisting_ne reg k k2 v h]
  · have h2 : ¬ (k = k2) := fun hc => h hc.symm
    simp [hk, keyCount_append, keyCount, h2]

/-- One inbound client WebSocket message (`await websocket.receive()`),
after JSON decoding of text frames: `binary` is a raw binary frame,
`text none` a text frame on which `json.loads` raised
(`json.JSONDecodeError`), `text (some v)` a successfully decoded one. -/
inductive ClientMsg where
  | binary (b : List Nat)
  | text (decoded : Option PyVal)
deriving DecidableEq, Repr

/-- An observable send performed by a pump: `up v` is
`await elevenlabs_ws.send(json.dumps(v))`, `clientJson v` is
`await websocket.send_json(v)`, `clientBytes b` is
`await websocket.send_bytes(b)`. -/
inductive PumpSend where
  | up (v : PyVal)
  | clientJson (v : PyVal)
  | clientBytes (b : List Nat)
deriving DecidableEq, Repr

/-- The `user_audio_data` dict built by `handle_client_audio` for a binary
frame (app.py lines 658-663).  The raw `bytes` object is placed under
`audio_base_64` without base64 encoding. -/
def audioEnvelope (audio_bytes : List Nat) : PyVal :=
  .obj [("type", .str "audio"),
        ("audio_event", .obj [("audio_base_64", .bytes audio_bytes)])]

/-- Body of one iteration of `handle_client_audio`'s receive loop
(app.py lines 646-726).  Returns the sends it performs and whether the
loop is left (`return` on an `end_call` control message).  Per-message
exceptions (`json.JSONDecodeError`, `KeyError`, `TypeError` from
`json.dumps` on `bytes`, `len()` on a non-sized value, attribute or
subscript errors) are caught by the surrounding handlers and the message
is dropped, matching the source's per-branch `except` clauses. -/
def handle_client_audio_msg : ClientMsg → List PumpSend × Bool
  | .binary audio_bytes =>
      if audio_bytes.length % 2 ≠ 0 then
        ([], false)       -- "Invalid PCM data: odd number of bytes", dropped
      else if json_serializable (audioEnvelope audio_bytes) then
        ([.up (audioEnvelope audio_bytes)], false)
      else
        ([], false)       -- json.dumps raises TypeError on bytes; caught, dropped
  | .text none => ([], false)   -- json.JSONDecodeError: logged, dropped
  | .text (some data) =>
      if !data.isObj then
        ([], false)       -- data.get raises AttributeError; caught, dropped
      else
        match data.getKey "type" with
        | some (.str "end_call") => ([], true)    -- return: pump exits
        | some (.str "contextual_update") =>
            match data.getKey "text" with
            | some t =>
                let m := PyVal.obj [("type", .str "contextual_update"), ("text", t)]
                (if json_serializable m then [.up m] else [], false)
            | none => ([], false)                 -- "text" not in data: dropped
        | some (.str "audio") =>
            match data.getKey "audio_event" with
            | some ev =>
                match pyGetItem ev "audio_base_64" with
                | some v =>
                    match pyLen v with
                    | some _ =>
                        let m := PyVal.obj [("user_audio_chunk", v)]
                        (if json_serializable m then [.up m] else [], false)
                    | none => ([], false)         -- len() TypeError: dropped
                | none => ([], false)             -- KeyError or TypeError: dropped
            | none => ([], false)                 -- "audio_event" not in data: dropped
        | _ => ([], false)                        -- unrecognized type: dropped

/-- The client-to-upstream pump over a finite inbound message sequence:
messages are handled strictly in order, and the loop stops at the first
message whose handler exits (`end_call`). -/
def handle_client_audio : List ClientMsg → List PumpSend
  | [] => []
  | m :: rest =>
      let r := handle_client_audio_msg m
      if r.2 then r.1 else r.1 ++ handle_client_audio rest

/-- Body of one iteration of `handle_elevenlabs_messages`'s receive loop
(app.py lines 744-796).  The input is the `json.loads` result of one
upstream message (`none` on decode failure).  `b64decode` abstracts
`base64.b64decode`, returning `none` when it raises.  All per-message
exceptions are caught by the handler's inner `except` clauses and the
message is dropped; the loop itself never exits from inside a message. -/
def handle_elevenlabs_msg (b64decode : String → Option (List Nat)) :
    Option PyVal → List PumpSend
  | none => []              -- json.JSONDecodeError: logged, dropped
  | some data =>
      if !data.isObj then
        []                  -- data.get raises AttributeError; caught, dropped
      else if data.getKey "type" = some (.str "ping") ∧
              (data.getKey "ping_event").isSome = true then
        match (data.getKey "ping_event").bind (fun ev => pyGetItem ev "event_id") with
        | some eid =>
            let pong := PyVal.obj [("type", .str "pong"), ("event_id", eid)]
            if json_serializable pong then [.up pong] else []
        | none => []        -- KeyError or TypeError: dropped
      else if data.getKey "type" = some (.str "audio") ∧
              (data.getKey "audio_event").isSome = true then
        match (data.getKey "audio_event").bind (fun ev => pyGetItem ev "audio_base_64") with
        | some (.str s) =>
            match b64decode s with
            | some bs => [.clientBytes bs]
            | none => []    -- binascii.Error: dropped
        | some _ => []      -- b64decode raises TypeError on a non-string: dropped
        | none => []        -- KeyError: dropped
      else
        [.clientJson data]  -- error, transcripts and all other types: forwarded verbatim

/-- The upstream-to-client pump over a finite inbound message sequence,
strictly in order. -/
def handle_elevenlabs_messages (b64decode : String → Option (List Nat)) :
    List (Option PyVal) → List PumpSend
  | [] => []
  | m :: rest =>
      handle_elevenlabs_msg b64decode m ++ handle_elevenlabs_messages b64decode rest

/-- First upstream message of a session: a handshake read timeout
(`asyncio.TimeoutError` after 5s), or the received text with `none`
standing for a `json.loads` failure. -/
inductive HandshakeInput where
  | timeout
  | msg (decoded : Option PyVal)
deriving DecidableEq, Repr

/-- Result of the handshake portion of `websocket_endpoint`: either the
client socket is closed with a code and reason and the handler returns
before starting any pump, or the session proceeds to the relay loops
carrying the sends already performed (to the client and upstream), the
possibly rekeyed registry and the session's current registry key. -/
inductive HandshakeOutcome where
  | abort (closeCode : Nat) (reason : String)
  | proceed (clientSends upSends : List PyVal) (reg : Registry) (sessionKey : PyVal)
deriving DecidableEq, Repr

/-- Fallback used when the record's `first_message` is falsy
(app.py line 616). -/
def default_first_message : String :=
  "Hello! I am your caregiver. How can I help you today?"

/-- The `conversation_initiation_client_data` dict built from the session
record (app.py lines 610-626).  Python truthiness: a `None` or empty
`first_message` falls back to the default, and the `prompt` override is
added only for a truthy `system_prompt`. -/
def init_config (conversation : Record) : PyVal :=
  let fm := match conversation.first_message with
    | some s => if s = "" then default_first_message else s
    | none => default_first_message
  let agentFields :=
    [("first_message", PyVal.str fm),
     ("start_conversation_immediately", PyVal.bool true)]
  let agentFields := match conversation.system_prompt with
    | some s =>
        if s = "" then agentFields
        else agentFields ++ [("prompt", PyVal.obj [("prompt", PyVal.str s)])]
    | none => agentFields
  PyVal.obj [("type", PyVal.str "conversation_initiation_client_data"),
             ("conversation_config_override", PyVal.obj [("agent", PyVal.obj agentFields)])]

/-- The registry mutation performed when the upstream metadata carries a
conversation id different from the provisional one (app.py lines
586-608): move the record under the new key, drop the old key, then do
the deferred database write-through.  `dbOk` is the outcome of the
external `db.store_conversation` call; on failure the exception is
caught and `needs_db_storage` stays set.  `none` models the `KeyError`
raised if the old key is unexpectedly absent. -/
def rekey_conversation (reg : Registry) (oldKey newKey : PyVal) (dbOk : Bool) :
    Option Registry :=
  match dictGet reg oldKey with
  | none => none
  | some cur =>
      let reg1 := dictPop (dictSet reg newKey cur) oldKey
      if cur.needs_db_storage then
        if dbOk then some (dictSet reg1 newKey { cur with needs_db_storage := false })
        else some reg1
      else some reg1

/-- Handshake portion of `websocket_endpoint` (app.py lines 572-639),
entered after the record was marked active.  `conversation_id` is the id
the client connected with, `conversation` the session record referenced
by the handler's local variable.  Exceptions inside the handshake `try`
block (decode failure, attribute, membership, subscript or key errors)
are caught by the `except` clauses that close the client socket with
code 1001 and an error reason; a first message that is a JSON object of
an unexpected type is only logged and the handler falls through to the
pumps. -/
def websocket_handshake (reg : Registry) (conversation_id : String)
    (conversation : Record) (hi : HandshakeInput) (dbOk : Bool) : HandshakeOutcome :=
  match hi with
  | .timeout => .abort 1001 "Timeout waiting for ElevenLabs response"
  | .msg none => .abort 1001 "Error: json.loads failed on the initial message"
  | .msg (some metadata) =>
      if !metadata.isObj then
        .abort 1001 "Error: AttributeError from metadata.get"
      else if metadata.getKey "type" = some (.str "conversation_initiation_metadata") then
        match metadata.getKey "conversation_initiation_metadata_event" with
        | some event_data =>
            match pyContains event_data "conversation_id" with
            | none => .abort 1001 "Error: TypeError from the membership test"
            | some false =>
                .proceed [metadata] [init_config conversation] reg (.str conversation_id)
            | some true =>
                match pyGetItem event_data "conversation_id" with
                | none => .abort 1001 "Error: TypeError from the subscript"
                | some realId =>
                    if realId = .str conversation_id then
                      .proceed [metadata] [init_config conversation] reg (.str conversation_id)
                    else if !realId.hashable then
                      .abort 1001 "Error: TypeError from an unhashable dict key"
                    else
                      match rekey_conversation reg (.str conversation_id) realId dbOk with
                      | none => .abort 1001 "Error: KeyError"
                      | some regNew =>
                          .proceed [metadata] [init_config conversation] regNew realId
        | none =>
            -- metadata of the right type but without the metadata-event dict:
            -- no rekey, no init config, pumps start anyway
            .proceed [metadata] [] reg (.str conversation_id)
      else
        -- "Unexpected initial message from ElevenLabs": logged only,
        -- pumps start anyway
        .proceed [metadata] [] reg (.str conversation_id)

/-- The `.up` payloads of a list of pump actions. -/
def upSendsOf (acts : List PumpSend) : List PyVal :=
  acts.filterMap (fun a => match a with | .up v => some v | _ => none)

/-- Every message the session sends to the upstream connection, in order:
`none` if the handshake aborted (no pump ever starts), otherwise the
handshake's upstream sends followed by the two pumps' upstream sends
(the upstream-to-client pump contributes only `pong` replies, so the
relative interleaving of the two pumps does not affect the properties
stated about this list). -/
def session_upstream_sends (reg : Registry) (conversation_id : String)
    (conversation : Record) (hi : HandshakeInput) (dbOk : Bool)
    (clientMsgs : List ClientMsg) (upstreamMsgs : List (Option PyVal))
    (b64decode : String → Option (List Nat)) : Option (List PyVal) :=
  match websocket_handshake reg conversation_id conversation hi dbOk with
  | .abort _ _ => none
  | .proceed _ ups _ _ =>
      some (ups ++ upSendsOf (handle_client_audio clientMsgs)
                ++ upSendsOf (handle_elevenlabs_messages b64decode upstreamMsgs))

/-- Whether a value is the initiation-config envelope. -/
def isInitConfig (v : PyVal) : Bool :=
  decide (v.getKey "type" = some (.str "conversation_initiation_client_data"))

/-- Outcome of the `/end-call/{conversation_id}` handler: the success
response, the 404 response, or an exception escaping the handler (the
`send_json` call is not guarded by a `try` block). -/
inductive EndCallOutcome where
  | success
  | notFound
  | raised
deriving DecidableEq, Repr

/-- The event sent to an attached client channel by `end_call`. -/
def end_call_message : PyVal := .obj [("type", .str "end_call")]

/-- The `/end-call/{conversation_id}` handler (app.py lines 832-853).
`sendOk` is the outcome of the attempted `websocket.send_json` call.
The guard `websocket and websocket.client_state.CONNECTED` reduces to
`websocket is not None`: `client_state.CONNECTED` accesses the enum
member `CONNECTED` through the instance, which is always truthy.
Returns the resulting registry, the client sends attempted, and the
handler outcome.  A failing send raises before the record is removed,
so the registry is returned unchanged in that case. -/
def end_call (reg : Registry) (conversation_id : String) (sendOk : Bool) :
    Registry × List PyVal × EndCallOutcome :=
  match dictGet reg (.str conversation_id) with
  | some conversation =>
      match conversation.websocket with
      | some _ =>
          if sendOk then
            (dictPop reg (.str conversation_id), [end_call_message], .success)
          else
            (reg, [end_call_message], .raised)
      | none => (dictPop reg (.str conversation_id), [], .success)
  | none => (reg, [], .notFound)

/-- Outcome of the external signed-URL provisioning call made by
`accept_notification`: HTTP failure status, or success with the signed
URL and the conversation id extracted from it (`none` when the URL
carries no `conversation_id=` parameter). -/
inductive NetOutcome where
  | fail (status : Nat)
  | ok (signed_url : String) (url_conversation_id : Option String)
deriving DecidableEq, Repr

/-- Outcome of the `/accept-notification/{notification_id}` handler. -/
inductive AcceptOutcome where
  | httpError (status : Nat)
  | accepted (conversation_id : String)
deriving DecidableEq, Repr

/-- The `/accept-notification/{notification_id}` handler (app.py lines
465-539).  The 404 and 400 guards run before the `try` block and before
any mutation, so both failures leave the registry unchanged.  A failed
provisioning call raises `HTTPException` inside the `try` block, which
the blanket `except` re-raises as a 500.  On success the record is
updated in place (preserving `first_message` and `system_prompt`),
stored under the new conversation id and popped from the notification
id. -/
def accept_notification (reg : Registry) (notification_id : String)
    (net : NetOutcome) : Registry × AcceptOutcome :=
  match dictGet reg (.str notification_id) with
  | none => (reg, .httpError 404)
  | some conversation =>
      if conversation.status ≠ "pending_notification" then (reg, .httpError 400)
      else
        match net with
        | .fail _ => (reg, .httpError 500)
        | .ok url urlCid =>
            let conversation_id :=
              urlCid.getD ("conv_" ++ conversation.user_id ++ "_" ++ conversation.agent_id)
            let updated := { conversation with
              status := "pending"
              signed_url := some url
              conversation_id := some conversation_id }
            (dictPop (dictSet reg (.str conversation_id) updated) (.str notification_id),
             .accepted conversation_id)

/-- Request body of `POST /trigger-notification` (the `NotificationRequest`
pydantic model, app.py lines 56-61).  The model has no agent field: any
agent identifier supplied by a caller is discarded during validation. -/
structure NotificationRequest where
  user_id : String
  notification_title : String := "Incoming Call"
  notification_body : String := "You have an incoming call. Click to answer."
  first_message : Option String := none
  system_prompt : Option String := none
deriving DecidableEq, Repr

/-- The `/trigger-notification` handler (app.py lines 392-459).  `now` is
`int(time.time())` and `connectedUsers` the keys of the notification
WebSocket registry.  Returns the updated registry, the generated
notification id, and whether a push over the side channel was attempted
(its failure is caught and ignored, so it affects nothing else). -/
def trigger_notification (reg : Registry) (req : NotificationRequest) (now : Nat)
    (connectedUsers : List String) : Registry × String × Bool :=
  let notification_id := "notif_" ++ req.user_id ++ "_" ++ toString now
  let record : Record :=
    { user_id := req.user_id
      agent_id := "agent_01jvvkzxr3e54rre8hjq5rxban"
      status := "pending_notification"
      notification_title := some req.notification_title
      notification_body := some req.notification_body
      first_message := req.first_message
      system_prompt := req.system_prompt
      created_at := some now
      websocket := none
      needs_db_storage := true }
  (dictSet reg (.str notification_id) record, notification_id,
   connectedUsers.contains req.user_id)

/-- Claim C1: the spec asserts that every well-formed (even-length) binary
client frame received during relaying is forwarded upstream as an
audio-event with a byte-identical payload.  The code cannot do this:
`handle_client_audio` embeds the raw `bytes` object in the envelope
without base64-encoding it, so `json.dumps` raises `TypeError`, the
per-chunk `except` swallows it, and the frame is dropped.  No binary
frame is ever forwarded; in particular the well-formed two-byte frame
`[0, 0]` produces no upstream send and does not end the pump. -/
theorem claim_C1_binary_frame_never_forwarded :
    (∀ b : List Nat, (handle_client_audio_msg (.binary b)).1 = []) ∧
    handle_client_audio_msg (.binary [0, 0]) = ([], false) := by
  constructor
  · intro b
    unfold handle_client_audio_msg
    by_cases h : b.length % 2 ≠ 0
    · simp [h]
    · simp [h, json_serializable, audioEnvelope, PyVal.obj, PyVal.hasBytes]
  · decide

/-- Claim C6: a 3-byte (odd) binary frame is dropped without exiting the
pump, as the claim states; but the subsequent well-formed 4-byte frame
is also dropped (same `json.dumps` `TypeError` as in C1) instead of
being forwarded, so the session's upstream sends stay empty. -/
theorem claim_C6_odd_dropped_then_even_also_dropped :
    handle_client_audio_msg (.binary [0, 0, 0]) = ([], false) ∧
    handle_client_audio [.binary [0, 0, 0], .binary [0, 0, 0, 0]] = [] := by
  decide

/-- Claim C7 (amended): for an id present in the registry, `end_call`
attempts a client send exactly when a client channel is attached; when
no channel is attached, or the send succeeds, the record is deleted and
success returned; but when the attempted send fails, the exception
escapes the handler (the send is not guarded), the record is NOT
deleted and no success response is produced. -/
theorem claim_C7_end_call_send_failure (reg : Registry) (cid : String) (r : Record)
    (sendOk : Bool) (h : dictGet reg (.str cid) = some r) :
    (r.websocket = none →
      end_call reg cid sendOk = (dictPop reg (.str cid), [], .success)) ∧
    (∀ w, r.websocket = some w → sendOk = true →
      end_call reg cid sendOk = (dictPop reg (.str cid), [end_call_message], .success)) ∧
    (∀ w, r.websocket = some w → sendOk = false →
      end_call reg cid sendOk = (reg, [end_call_message], .raised)) := by
  refine ⟨fun hw => ?_, fun w hw hs => ?_, fun w hw hs => ?_⟩
  · unfold end_call
    simp [h, hw]
  · unfold end_call
    simp [h, hw, hs]
  · unfold end_call
    simp [h, hw, hs]

/-- Concrete instantiation of the three cases of C7's amended theorem. -/
theorem claim_C7_end_call_send_failure_witness :
    end_call [(PyVal.str "a", {})] "a" true = ([], [], .success) ∧
    end_call [(PyVal.str "b", { websocket := some 2 })] "b" true =
      ([], [end_call_message], .success) ∧
    end_call [(PyVal.str "b", { websocket := some 2 })] "b" false =
      ([(PyVal.str "b", { websocket := some 2 })], [end_call_message], .raised) := by
  refine ⟨?_, ?_, ?_⟩
  · have hh := (claim_C7_end_call_send_failure [(PyVal.str "a", {})] "a" {} true
      (by decide)).1 (by decide)
    rw [hh]; decide
  · have hh := (claim_C7_end_call_send_failure [(PyVal.str "b", { websocket := some 2 })] "b"
      { websocket := some 2 } true (by decide)).2.1 2 (by decide) (by decide)
    rw [hh]; decide
  · have hh := (claim_C7_end_call_send_failure [(PyVal.str "b", { websocket := some 2 })] "b"
      { websocket := some 2 } false (by decide)).2.2 2 (by decide) (by decide)
    rw [hh]

/-- Counterexample to claim C7 as stated: for the registry holding
session `c1` with an attached client channel, a failing `end_call` send
leaves the registry unchanged (the record is not deleted) and produces
no success response, contradicting the claimed best-effort behaviour. -/
theorem claim_C7_counterexample :
    (end_call [(PyVal.str "c1", { websocket := some 1 })] "c1" false).1 =
      [(PyVal.str "c1", { websocket := some 1 })] ∧
    (end_call [(PyVal.str "c1", { websocket := some 1 })] "c1" false).2.2 ≠
      EndCallOutcome.success ∧
    dictGet [(PyVal.str "c1", { websocket := some 1 })] (.str "c1") =
      some { websocket := some 1 } := by
  decide

/-- Claim C9 (amended): for an id present in the registry, provided the
record has no attached client channel or the end-call send succeeds, the
first `/end-call/{id}` returns success and removes the entry, and a
second call returns the 404 not-found response. -/
theorem claim_C9_end_call_twice (reg : Registry) (cid : String) (r : Record)
    (sendOk1 sendOk2 : Bool) (h : dictGet reg (.str cid) = some r)
    (hok : r.websocket = none ∨ sendOk1 = true) :
    (end_call reg cid sendOk1).2.2 = .success ∧
    dictGet (end_call reg cid sendOk1).1 (.str cid) = none ∧
    (end_call (end_call reg cid sendOk1).1 cid sendOk2).2.2 = .notFound := by
  have key : (end_call reg cid sendOk1).1 = dictPop reg (.str cid) ∧
      (end_call reg cid sendOk1).2.2 = .success := by
    unfold end_call
    rcases hok with hw | hs
    · simp [h, hw]
    · cases hw : r.websocket <;> simp [h, hw, hs]
  refine ⟨key.2, ?_, ?_⟩
  · rw [key.1]; exact dictGet_pop_self reg (.str cid)
  · rw [key.1]
    unfold end_call
    rw [dictGet_pop_self]

/-- Concrete instantiation of C9's amended theorem. -/
theorem claim_C9_end_call_twice_witness :
    (end_call [(PyVal.str "c", {})] "c" true).2.2 = .success ∧
    dictGet (end_call [(PyVal.str "c", {})] "c" true).1 (.str "c") = none ∧
    (end_call (end_call [(PyVal.str "c", {})] "c" true).1 "c" true).2.2 = .notFound :=
  claim_C9_end_call_twice [(PyVal.str "c", {})] "c" {} true true (by decide) (Or.inl (by decide))

/-- Counterexample to claim C9 as stated: session `c9` is present in the
registry, yet the first end-call does not return success when the
attached channel's send fails (the handler raises instead), so the
claimed first-success/second-404 sequence does not hold for every
present id. -/
theorem claim_C9_counterexample :
    dictGet [(PyVal.str "c9", { websocket := some 7 })] (.str "c9") =
      some { websocket := some 7 } ∧
    (end_call [(PyVal.str "c9", { websocket := some 7 })] "c9" false).2.2 ≠
      EndCallOutcome.success := by
  decide

/-- Claim C8: `accept_notification` returns 404 with the registry
unchanged when the id is absent, and 400 with the registry unchanged
when the id exists with a status other than `pending_notification`;
both guards run before any mutation or network call. -/
theorem claim_C8_accept_notification_failures (reg : Registry) (nid : String)
    (net : NetOutcome) :
    (dictGet reg (.str nid) = none →
      accept_notification reg nid net = (reg, .httpError 404)) ∧
    (∀ r, dictGet reg (.str nid) = some r → r.status ≠ "pending_notification" →
      accept_notification reg nid net = (reg, .httpError 400)) := by
  constructor
  · intro h
    unfold accept_notification
    rw [h]
  · intro r h hs
    unfold accept_notification
    rw [h]
    simp [hs]

/-- Concrete instantiation of C8: unknown id gives 404, an `active`
record gives 400, the registry is unchanged in both cases. -/
theorem claim_C8_accept_notification_failures_witness :
    accept_notification [(PyVal.str "n1", { status := "active" })] "nx" (.ok "u" none) =
      ([(PyVal.str "n1", { status := "active" })], .httpError 404) ∧
    accept_notification [(PyVal.str "n1", { status := "active" })] "n1" (.ok "u" none) =
      ([(PyVal.str "n1", { status := "active" })], .httpError 400) :=
  ⟨(claim_C8_accept_notification_failures _ "nx" _).1 (by decide),
   (claim_C8_accept_notification_failures _ "n1" _).2
     { status := "active" } (by decide) (by decide)⟩

/-- Claim C10: every `/trigger-notification` request creates a record
whose `agent_id` is the hard-coded incoming-call agent, whose status is
`pending_notification`, and whose `first_message` and `system_prompt`
are stored exactly as supplied; the request model has no agent field,
so no caller-supplied agent identifier can influence the record. -/
theorem claim_C10_trigger_notification_record (reg : Registry)
    (req : NotificationRequest) (now : Nat) (conns : List String) :
    ∃ rec : Record,
      dictGet (trigger_notification reg req now conns).1
        (.str ("notif_" ++ req.user_id ++ "_" ++ toString now)) = some rec ∧
      rec.agent_id = "agent_01jvvkzxr3e54rre8hjq5rxban" ∧
      rec.status = "pending_notification" ∧
      rec.first_message = req.first_message ∧
      rec.system_prompt = req.system_prompt := by
  refine ⟨{ user_id := req.user_id
            agent_id := "agent_01jvvkzxr3e54rre8hjq5rxban"
            status := "pending_notification"
            notification_title := some req.notification_title
            notification_body := some req.notification_body
            first_message := req.first_message
            system_prompt := req.system_prompt
            created_at := some now
            websocket := none
            needs_db_storage := true }, ?_, rfl, rfl, rfl, rfl⟩
  exact dictGet_set_self reg _ _

/-- Claim C5: when the upstream handshake metadata carries a canonical
conversation id different from the provisional one, the rekey block of
`websocket_endpoint` (embedded as `rekey_conversation`, which
`websocket_handshake` invokes in exactly that case) moves the record:
afterwards the registry has no entry under the provisional id, exactly
one entry under the canonical id, and that entry's `first_message` and
`system_prompt` equal their values before the rekey — the deferred
database write-through at most clears `needs_db_storage`. -/
theorem claim_C5_rekey_moves_record (reg : Registry) (prov canon : String)
    (r : Record) (dbOk : Bool)
    (hnd : keysNodup reg)
    (hget : dictGet reg (.str prov) = some r)
    (hne : canon ≠ prov) :
    ∃ regNew, rekey_conversation reg (.str prov) (.str canon) dbOk = some regNew ∧
      keyCount regNew (.str prov) = 0 ∧
      keyCount regNew (.str canon) = 1 ∧
      (dictGet regNew (.str canon)).map Record.first_message = some r.first_message ∧
      (dictGet regNew (.str canon)).map Record.system_prompt = some r.system_prompt := by
  have hkne : PyVal.str canon ≠ PyVal.str prov := by
    intro hc
    exact hne (by injection hc)
  have hkne2 : PyVal.str prov ≠ PyVal.str canon := fun hc => hkne hc.symm
  have h1 : keyCount (dictPop (dictSet reg (.str canon) r) (.str prov)) (.str prov) = 0 :=
    keyCount_pop_self _ _
  have h2 : keyCount (dictPop (dictSet reg (.str canon) r) (.str prov)) (.str canon) = 1 := by
    rw [keyCount_pop_ne _ _ _ hkne]
    exact keyCount_set_self_of_nodup reg _ r hnd
  have h3 : dictGet (dictPop (dictSet reg (.str canon) r) (.str prov)) (.str canon) = some r := by
    rw [dictGet_pop_ne _ _ _ hkne]
    exact dictGet_set_self reg _ r
  unfold rekey_conversation
  rw [hget]
  dsimp only
  cases hflag : r.needs_db_storage with
  | false =>
      simp only [hflag, Bool.false_eq_true, if_false]
      exact ⟨_, rfl, h1, h2, by rw [h3]; rfl, by rw [h3]; rfl⟩
  | true =>
      simp only [hflag, if_true]
      cases dbOk with
      | false =>
          simp only [Bool.false_eq_true, if_false]
          exact ⟨_, rfl, h1, h2, by rw [h3]; rfl, by rw [h3]; rfl⟩
      | true =>
          simp only [if_true]
          refine ⟨_, rfl, ?_, ?_, ?_, ?_⟩
          · rw [keyCount_set_ne _ _ _ _ hkne2]
            exact h1
          · have hk : hasKeyReg (dictPop (dictSet reg (.str canon) r) (.str prov))
                (.str canon) = true := hasKeyReg_of_dictGet _ _ _ h3
            rw [keyCount_set_of_hasKey _ _ _ hk]
            exact h2
          · rw [dictGet_set_self]
            rfl
          · rw [dictGet_set_self]
            rfl

/-- Sample record and registry used to instantiate C5. -/
def recC5 : Record :=
  { first_message := some "fm", system_prompt := some "sp", needs_db_storage := true }

/-- Registry holding one provisional record for the C5 instantiation. -/
def regC5 : Registry := [(PyVal.str "conv_u1_1000", recC5)]

/-- Concrete instantiation of C5's theorem at the spec's example:
provisional id `conv_u1_1000`, canonical id `abc123`. -/
theorem claim_C5_rekey_moves_record_witness :
    keysNodup regC5 ∧
    dictGet regC5 (.str "conv_u1_1000") = some recC5 ∧
    (∃ regNew, rekey_conversation regC5 (.str "conv_u1_1000") (.str "abc123") true =
        some regNew ∧
      keyCount regNew (.str "conv_u1_1000") = 0 ∧
      keyCount regNew (.str "abc123") = 1 ∧
      (dictGet regNew (.str "abc123")).map Record.first_message = some recC5.first_message ∧
      (dictGet regNew (.str "abc123")).map Record.system_prompt = some recC5.system_prompt) :=
  ⟨by decide, by decide,
   claim_C5_rekey_moves_record regC5 "conv_u1_1000" "abc123" recC5 true
     (by decide) (by decide) (by decide)⟩

/-- Claim C4 (amended): for every upstream message whose decoded JSON is a
`ping` object carrying a `ping_event` with an `event_id`, the pump sends
exactly one `pong` echoing that event id back on the upstream
connection, and does so before the next upstream message is processed
(messages are handled strictly in order).  The `eid.hasBytes = false`
hypothesis records that the id stems from decoded JSON, which can never
contain a Python `bytes` object. -/
theorem claim_C4_pong_echoes_event_id (b64 : String → Option (List Nat))
    (data ev eid : PyVal) (rest : List (Option PyVal))
    (hping : data.getKey "type" = some (.str "ping"))
    (hev : data.getKey "ping_event" = some ev)
    (heid : pyGetItem ev "event_id" = some eid)
    (hnb : eid.hasBytes = false) :
    handle_elevenlabs_msg b64 (some data) =
      [.up (PyVal.obj [("type", .str "pong"), ("event_id", eid)])] ∧
    handle_elevenlabs_messages b64 (some data :: rest) =
      .up (PyVal.obj [("type", .str "pong"), ("event_id", eid)]) ::
        handle_elevenlabs_messages b64 rest := by
  have hobj : (!data.isObj) = false := by
    cases data <;> simp_all [PyVal.getKey, PyVal.isObj]
  have hmain : handle_elevenlabs_msg b64 (some data) =
      [.up (PyVal.obj [("type", .str "pong"), ("event_id", eid)])] := by
    unfold handle_elevenlabs_msg
    simp only [hobj, Bool.false_eq_true, if_false, hping, hev, Option.some_bind,
      Option.isSome_some, heid]
    simp [json_serializable, PyVal.obj, PyVal.hasBytes, hnb]
  refine ⟨hmain, ?_⟩
  simp only [handle_elevenlabs_messages]
  rw [hmain]
  rfl

/-- Concrete instantiation of C4's amended theorem. -/
theorem claim_C4_pong_echoes_event_id_witness :
    handle_elevenlabs_msg (fun _ => none)
        (some (PyVal.obj [("type", .str "ping"),
          ("ping_event", PyVal.obj [("event_id", .num 5)])])) =
      [.up (PyVal.obj [("type", .str "pong"), ("event_id", .num 5)])] ∧
    handle_elevenlabs_messages (fun _ => none)
        [some (PyVal.obj [("type", .str "ping"),
          ("ping_event", PyVal.obj [("event_id", .num 5)])])] =
      [.up (PyVal.obj [("type", .str "pong"), ("event_id", .num 5)])] := by
  have hh := claim_C4_pong_echoes_event_id (fun _ => none)
    (PyVal.obj [("type", .str "ping"), ("ping_event", PyVal.obj [("event_id", .num 5)])])
    (PyVal.obj [("event_id", .num 5)]) (.num 5) []
    (by decide) (by decide) (by decide) (by decide)
  exact ⟨hh.1, hh.2⟩

/-- Counterexample to claim C4 as stated: `{"type": "ping"}` is a message
of type ping, yet the pump sends no pong for it — the guard also
requires a `ping_event` member, and without one the message falls
through to the default branch and is forwarded to the client instead. -/
theorem claim_C4_counterexample :
    handle_elevenlabs_msg (fun _ => none) (some (PyVal.obj [("type", PyVal.str "ping")])) =
      [.clientJson (PyVal.obj [("type", PyVal.str "ping")])] ∧
    upSendsOf (handle_elevenlabs_msg (fun _ => none)
      (some (PyVal.obj [("type", PyVal.str "ping")]))) = [] := by
  constructor <;> rfl

/-- Claim C3 (amended): a handshake timeout or a decode failure of the
first upstream message aborts the session before either pump starts
(no upstream sends ever happen), closing the client socket with code
1001 and a nonempty reason string; but a first message that decodes to
a JSON object of any other type does NOT abort — the handler only logs
it and proceeds to start both pumps without sending an initiation
config. -/
theorem claim_C3_handshake_failures (reg : Registry) (cid : String)
    (conv : Record) (dbOk : Bool) :
    (∃ reason, websocket_handshake reg cid conv .timeout dbOk = .abort 1001 reason ∧
      reason ≠ "") ∧
    (∃ reason, websocket_handshake reg cid conv (.msg none) dbOk = .abort 1001 reason ∧
      reason ≠ "") ∧
    (∀ clientMsgs upMsgs b64,
      session_upstream_sends reg cid conv .timeout dbOk clientMsgs upMsgs b64 = none) ∧
    (∀ clientMsgs upMsgs b64,
      session_upstream_sends reg cid conv (.msg none) dbOk clientMsgs upMsgs b64 = none) ∧
    (∀ md : PyVal, md.isObj = true →
      md.getKey "type" ≠ some (.str "conversation_initiation_metadata") →
      websocket_handshake reg cid conv (.msg (some md)) dbOk =
        .proceed [md] [] reg (.str cid)) := by
  refine ⟨⟨_, rfl, by decide⟩, ⟨_, rfl, by decide⟩, fun a b c => rfl, fun a b c => rfl, ?_⟩
  intro md hobj htype
  unfold websocket_handshake
  simp [hobj, htype]

/-- Concrete instantiation of C3's amended theorem: the timeout abort and
the wrong-type fall-through. -/
theorem claim_C3_handshake_failures_witness :
    (∃ reason, websocket_handshake [] "c1" {} .timeout true = .abort 1001 reason ∧
      reason ≠ "") ∧
    websocket_handshake [] "c1" {} (.msg (some (PyVal.obj [("type", PyVal.str "pong")]))) true =
      .proceed [PyVal.obj [("type", PyVal.str "pong")]] [] [] (.str "c1") :=
  ⟨(claim_C3_handshake_failures [] "c1" {} true).1,
   (claim_C3_handshake_failures [] "c1" {} true).2.2.2.2
     (PyVal.obj [("type", PyVal.str "pong")]) (by decide) (by decide)⟩

/-- Counterexample to claim C3 as stated: a structured first upstream
message of the wrong type (here `{"type": "pong"}`) does not abort the
session — the handshake returns a `proceed` outcome (the pumps start,
the client socket is not closed with 1001). -/
theorem claim_C3_counterexample :
    websocket_handshake [] "c1" {} (.msg (some (PyVal.obj [("type", PyVal.str "pong")]))) true =
      .proceed [PyVal.obj [("type", PyVal.str "pong")]] [] [] (.str "c1") := by
  decide

theorem isInitConfig_init_config (conv : Record) :
    isInitConfig (init_config conv) = true := by
  simp [isInitConfig, init_config, PyVal.obj, PyVal.getKey]

theorem mem_upSendsOf (acts : List PumpSend) (v : PyVal) :
    v ∈ upSendsOf acts ↔ PumpSend.up v ∈ acts := by
  induction acts with
  | nil => simp [upSendsOf]
  | cons a rest ih =>
    cases a <;> simp [upSendsOf, List.filterMap_cons] <;>
      simp [upSendsOf] at ih <;> rw [ih]

theorem upSendsOf_append (a b : List PumpSend) :
    upSendsOf (a ++ b) = upSendsOf a ++ upSendsOf b := by
  simp [upSendsOf, List.filterMap_append]

theorem client_msg_up_not_initconfig (m : ClientMsg) (v : PyVal)
    (h : PumpSend.up v ∈ (handle_client_audio_msg m).1) :
    isInitConfig v = false := by
  cases m with
  | binary b =>
    simp only [handle_client_audio_msg] at h
    split at h
    · simp at h
    · split at h
      · simp only [List.mem_singleton, PumpSend.up.injEq] at h
        subst h
        simp [isInitConfig, audioEnvelope, PyVal.obj, PyVal.getKey]
      · simp at h
  | text d =>
    cases d with
    | none => simp [handle_client_audio_msg] at h
    | some data =>
      simp only [handle_client_audio_msg] at h
      split at h
      · simp at h
      · split at h
        · simp at h
        · split at h
          · dsimp only at h
            split at h
            · simp only [List.mem_singleton, PumpSend.up.injEq] at h
              subst h
              simp [isInitConfig, PyVal.obj, PyVal.getKey]
            · simp at h
          · simp at h
        · split at h
          · split at h
            · split at h
              · dsimp only at h
                split at h
                · simp only [List.mem_singleton, PumpSend.up.injEq] at h
                  subst h
                  simp [isInitConfig, PyVal.obj, PyVal.getKey]
                · simp at h
              · simp at h
            · simp at h
          · simp at h
        · simp at h

theorem elevenlabs_msg_up_not_initconfig (b64 : String → Option (List Nat))
    (m : Option PyVal) (v : PyVal)
    (h : PumpSend.up v ∈ handle_elevenlabs_msg b64 m) :
    isInitConfig v = false := by
  cases m with
  | none => simp [handle_elevenlabs_msg] at h
  | some data =>
    simp only [handle_elevenlabs_msg] at h
    split at h
    · simp at h
    · split at h
      · split at h
        · split at h
          · simp only [List.mem_singleton, PumpSend.up.injEq] at h
            subst h
            simp [isInitConfig, PyVal.obj, PyVal.getKey]
          · simp at h
        · simp at h
      · split at h
        · split at h
          · split at h
            · simp at h
            · simp at h
          · simp at h
          · simp at h
        · simp at h

theorem client_pump_up_not_initconfig (msgs : List ClientMsg) (v : PyVal)
    (h : v ∈ upSendsOf (handle_client_audio msgs)) :
    isInitConfig v = false := by
  induction msgs with
  | nil => simp [handle_client_audio, upSendsOf] at h
  | cons m rest ih =>
    simp only [handle_client_audio] at h
    by_cases hex : (handle_client_audio_msg m).2 = true
    · rw [if_pos hex] at h
      exact client_msg_up_not_initconfig m v ((mem_upSendsOf _ _).mp h)
    · rw [if_neg hex, upSendsOf_append] at h
      rcases List.mem_append.mp h with h | h
      · exact client_msg_up_not_initconfig m v ((mem_upSendsOf _ _).mp h)
      · exact ih h

theorem elevenlabs_pump_up_not_initconfig (b64 : String → Option (List Nat))
    (msgs : List (Option PyVal)) (v : PyVal)
    (h : v ∈ upSendsOf (handle_elevenlabs_messages b64 msgs)) :
    isInitConfig v = false := by
  induction msgs with
  | nil => simp [handle_elevenlabs_messages, upSendsOf] at h
  | cons m rest ih =>
    simp only [handle_elevenlabs_messages] at h
    rw [upSendsOf_append] at h
    rcases List.mem_append.mp h with h | h
    · exact elevenlabs_msg_up_not_initconfig b64 m v ((mem_upSendsOf _ _).mp h)
    · exact ih h

theorem handshake_proceed_upSends (reg : Registry) (cid : String) (conv : Record)
    (dbOk : Bool) (md : PyVal) (cs ups : List PyVal) (reg2 : Registry) (sKey : PyVal)
    (htype : md.getKey "type" = some (.str "conversation_initiation_metadata"))
    (hevent : (md.getKey "conversation_initiation_metadata_event").isSome = true)
    (h : websocket_handshake reg cid conv (.msg (some md)) dbOk =
      .proceed cs ups reg2 sKey) :
    ups = [init_config conv] := by
  have hobj : (!md.isObj) = false := by
    cases md <;> simp_all [PyVal.getKey, PyVal.isObj]
  obtain ⟨ev, hev⟩ := Option.isSome_iff_exists.mp hevent
  simp only [websocket_handshake] at h
  rw [hobj] at h
  simp only [Bool.false_eq_true, if_false] at h
  rw [if_pos htype, hev] at h
  dsimp only at h
  split at h
  · simp at h
  · injection h with h1 h2 h3 h4
    exact h2.symm
  · split at h
    · simp at h
    · split at h
      · injection h with h1 h2 h3 h4
        exact h2.symm
      · split at h
        · simp at h
        · split at h
          · simp at h
          · injection h with h1 h2 h3 h4
            exact h2.symm

/-- Claim C2 (amended): in a session whose first upstream message is a
`conversation_initiation_metadata` object carrying the metadata-event
dict, and whose handshake completes (does not abort), exactly one
initiation-config message is sent upstream, it is the very first
upstream send of the session — in particular it precedes any forwarded
client audio — and it is `init_config` of the session record, carrying
the record's `first_message`/`system_prompt` overrides.  (The claim's
unconditional "for every relay session" fails: see the counterexample,
where the metadata-event dict is absent.) -/
theorem claim_C2_one_config_first (reg : Registry) (cid : String) (conv : Record)
    (dbOk : Bool) (md : PyVal) (clientMsgs : List ClientMsg)
    (upMsgs : List (Option PyVal)) (b64 : String → Option (List Nat)) (l : List PyVal)
    (htype : md.getKey "type" = some (.str "conversation_initiation_metadata"))
    (hevent : (md.getKey "conversation_initiation_metadata_event").isSome = true)
    (hs : session_upstream_sends reg cid conv (.msg (some md)) dbOk
      clientMsgs upMsgs b64 = some l) :
    l.head? = some (init_config conv) ∧ l.countP isInitConfig = 1 := by
  unfold session_upstream_sends at hs
  cases hh : websocket_handshake reg cid conv (.msg (some md)) dbOk with
  | abort code reason =>
    rw [hh] at hs
    simp at hs
  | proceed cs ups reg2 sKey =>
    rw [hh] at hs
    have hups := handshake_proceed_upSends reg cid conv dbOk md cs ups reg2 sKey
      htype hevent hh
    subst hups
    simp only [Option.some_inj] at hs
    subst hs
    constructor
    · rfl
    · rw [List.countP_append, List.countP_append]
      have hA : (upSendsOf (handle_client_audio clientMsgs)).countP isInitConfig = 0 := by
        rw [List.countP_eq_zero]
        intro a ha
        simp [client_pump_up_not_initconfig clientMsgs a ha]
      have hB : (upSendsOf (handle_elevenlabs_messages b64 upMsgs)).countP
          isInitConfig = 0 := by
        rw [List.countP_eq_zero]
        intro a ha
        simp [elevenlabs_pump_up_not_initconfig b64 upMsgs a ha]
      simp [hA, hB, List.countP_cons, isInitConfig_init_config]

/-- Sample handshake metadata, record and client message instantiating C2. -/
def mdC2 : PyVal :=
  PyVal.obj [("type", .str "conversation_initiation_metadata"),
             ("conversation_initiation_metadata_event",
              PyVal.obj [("conversation_id", .str "abc123")])]

/-- Session record used in the C2 instantiation. -/
def convC2 : Record := { first_message := some "hi", needs_db_storage := true }

/-- Client text frame carrying audio via the JSON path, used in C2's
instantiation and counterexample. -/
def audioTextC2 : ClientMsg :=
  .text (some (PyVal.obj [("type", .str "audio"),
    ("audio_event", PyVal.obj [("audio_base_64", .str "AAAA")])]))

/-- Concrete instantiation of C2's amended theorem: the session sends the
config first and exactly once, before the forwarded client audio. -/
theorem claim_C2_one_config_first_witness :
    session_upstream_sends [(PyVal.str "conv_u1_1000", convC2)] "conv_u1_1000" convC2
        (.msg (some mdC2)) true [audioTextC2] [] (fun _ => none) =
      some [init_config convC2, PyVal.obj [("user_audio_chunk", PyVal.str "AAAA")]] ∧
    ([init_config convC2, PyVal.obj [("user_audio_chunk", PyVal.str "AAAA")]].head? =
        some (init_config convC2) ∧
      [init_config convC2,
        PyVal.obj [("user_audio_chunk", PyVal.str "AAAA")]].countP isInitConfig = 1) :=
  ⟨by decide,
   claim_C2_one_config_first [(PyVal.str "conv_u1_1000", convC2)] "conv_u1_1000" convC2
     true mdC2 [audioTextC2] [] (fun _ => none)
     [init_config convC2, PyVal.obj [("user_audio_chunk", PyVal.str "AAAA")]]
     (by decide) (by decide) (by decide)⟩

/-- Counterexample to claim C2 as stated: when the first upstream message
has the right type but lacks the `conversation_initiation_metadata_event`
dict, the handshake proceeds without sending any initiation config, the
pumps start, and client audio (sent via the JSON audio path) is
forwarded upstream in a session whose upstream sends contain zero
initiation-config messages. -/
theorem claim_C2_counterexample :
    session_upstream_sends [(PyVal.str "c1", {})] "c1" {}
        (.msg (some (PyVal.obj [("type", PyVal.str "conversation_initiation_metadata")])))
        true [audioTextC2] [] (fun _ => none) =
      some [PyVal.obj [("user_audio_chunk", PyVal.str "AAAA")]] ∧
    List.countP isInitConfig [PyVal.obj [("user_audio_chunk", PyVal.str "AAAA")]] = 0 := by
  constructor <;> decide
